import Mathlib

/-!
Shallow embedding of the hikvision-camera-bot core: the DVR file entity
(`file_wrapper.py`), its metadata probing, the Telegram DVR upload worker
(`upload/tasks/telegram.py`), the alarm service state machine (`alarm.py`)
and the detection-toggle task handler (`inbound.py`).

Python objects become Lean structures; mutation becomes explicit state
passing; raised exceptions become explicit error values carried next to the
final state. External collaborators (the Hikvision HTTP API, the Telegram
transport, the filesystem, the ffprobe subprocess) are modelled as explicit
behaviour parameters, since the code only observes their results.
-/

set_option autoImplicit false

namespace HikBot

/-! ## Errors

The source defines ServiceRuntimeError and HikvisionAPIError in
`hikcamerabot/exceptions.py` (outside the excerpt); here an error value is a
runtime-state error with its message, the only kind the embedded code
raises, while device-API failures of the external `api.switch` collaborator
are modelled as the `Except.error` branch of the behaviour parameter.
-/

inductive BotError where
  | serviceRuntimeError (msg : String)
  deriving DecidableEq, Repr

/-! ## DVR file entity (`services/stream/dvr/file_wrapper.py`) -/

/-- Representation of one ffprobe stream entry, as far as `_get_probe_ctx`
reads it: the `codec_type`, `height` and `width` keys, each `none` when the
key is absent (a Python `KeyError` on access). -/
structure FfprobeStream where
  codec_type : Option String
  height : Option Int
  width : Option Int
  deriving DecidableEq, Repr

/-- Representation of the ffprobe context dictionary, as far as
`_get_probe_ctx` reads it. `streams = none` models a missing `streams` key;
`format_duration = none` models a missing `format` or `duration` key.
A present duration is modelled as the already-parsed integer value of
Python `int(float(ctx[format][duration]))`. -/
structure ProbeCtx where
  streams : Option (List FfprobeStream)
  format_duration : Option Int
  deriving DecidableEq, Repr

/-- An uncaught Python exception escaping `_get_probe_ctx`: the only two
reachable kinds are a `KeyError` raised outside the `try` block and an
`IndexError` raised inside it (which the `except KeyError` does not catch). -/
inductive PyError where
  | keyError
  | indexError
  deriving DecidableEq, Repr

/-- State of a `DvrFile` instance: the fields `__init__` sets, with the
mutable metadata fields `Option`-valued exactly as in the source
(initialised to `None`, possibly assigned by `_get_probe_ctx`). -/
structure DvrFile where
  filename : String
  lock_count : Int
  is_broken : Bool
  duration : Option Int
  width : Option Int
  height : Option Int
  probe_ctx : Option ProbeCtx
  deriving DecidableEq, Repr

namespace DvrFile

/-- Embedding of `DvrFile.__init__`: constructing with `lock_count <= 0`
raises `RuntimeError`, otherwise the fields are initialised, metadata unset
and the file healthy. The path fields derived from the camera configuration
are omitted: the embedded code never branches on them. -/
def init (filename : String) (lock_count : Int) : Except String DvrFile :=
  if lock_count ≤ 0 then
    .error "Lock count cannot be lower or equal 0"
  else
    .ok
      { filename := filename
        lock_count := lock_count
        is_broken := false
        duration := none
        width := none
        height := none
        probe_ctx := none }

/-- Embedding of `DvrFile._mark_as_broken`. -/
def mark_as_broken (f : DvrFile) : DvrFile :=
  { f with is_broken := true }

/-- Embedding of `DvrFile.decrement_lock_count`: decrement only when the
count is strictly positive. -/
def decrement_lock_count (f : DvrFile) : DvrFile :=
  if f.lock_count > 0 then { f with lock_count := f.lock_count - 1 } else f

/-- Embedding of the `DvrFile.is_locked` property. -/
def is_locked (f : DvrFile) : Bool :=
  f.lock_count != 0

/-- Iterated calls of `decrement_lock_count`, modelling an arbitrary
sequence of decrements (the only mutation of `lock_count` after
construction). -/
def applyDecrements (f : DvrFile) : Nat → DvrFile
  | 0 => f
  | n + 1 => (f.applyDecrements n).decrement_lock_count

/-- The video streams of a probe context: the entries whose `codec_type`
is `video`, as filtered by the list comprehension in `_get_probe_ctx`. -/
def videoStreams (streams : List FfprobeStream) : List FfprobeStream :=
  streams.filter (fun s => s.codec_type == some "video")

/-- Embedding of `DvrFile._get_probe_ctx`, mapping the probe collaborator
result (`none` models a falsy result: empty dict or `None`) to the final
file state together with an optional uncaught exception. Mirrors the
source line by line:
store the context; on a falsy context mark broken and return; compute the
video streams (a missing `streams` key or a missing `codec_type` key is an
uncaught `KeyError`); then inside `try`: assign `duration`, then index
`video_streams[0]` (an empty list is an uncaught `IndexError`), then assign
`height` and `width`; a `KeyError` anywhere in the `try` block marks the
file broken, keeping the assignments already made. -/
def get_probe_ctx (f : DvrFile) (probeResult : Option ProbeCtx) :
    DvrFile × Option PyError :=
  match probeResult with
  | none => (mark_as_broken { f with probe_ctx := none }, none)
  | some ctx =>
    let f := { f with probe_ctx := some ctx }
    match ctx.streams with
    | none => (f, some .keyError)
    | some streams =>
      if streams.any (fun s => s.codec_type.isNone) then
        (f, some .keyError)
      else
        match ctx.format_duration with
        | none => (mark_as_broken f, none)
        | some d =>
          let f := { f with duration := some d }
          match videoStreams streams with
          | [] => (f, some .indexError)
          | v :: _ =>
            match v.height with
            | none => (mark_as_broken f, none)
            | some h =>
              let f := { f with height := some h }
              match v.width with
              | none => (mark_as_broken f, none)
              | some w => ({ f with width := some w }, none)

end DvrFile

/-! ## Alarm service state machine (`services/alarm/camera/alarm.py`) -/

/-- The detection trigger kinds, `DetectionType` in `hikcamerabot/enums.py`
(outside the excerpt; the member list is taken from the repository
constants, and every theorem below is parametric in the per-trigger
configuration, so only the order and length of the list matter). -/
inductive DetectionType where
  | motion_detection
  | line_crossing_detection
  | intrusion_detection
  deriving DecidableEq, Repr

/-- Embedding of `AlarmService.ALARM_TRIGGERS = DetectionType.choices()`. -/
def ALARM_TRIGGERS : List DetectionType :=
  [.motion_detection, .line_crossing_detection, .intrusion_detection]

/-- Human-readable trigger name, `DETECTION_SWITCH_MAP[trigger][name]` from
`hikcamerabot/constants.py` (outside the excerpt; values from the
repository constants — the embedded code only concatenates them into error
messages). -/
def DetectionType.full_name : DetectionType → String
  | .motion_detection => "Motion Detection"
  | .line_crossing_detection => "Line Crossing Detection"
  | .intrusion_detection => "Intrusion Detection"

/-- Behaviour of the external `HikvisionAPI.switch` collaborator for one
call: `.ok text` is a normal return with the optional informational string,
`.error msg` is a raised `HikvisionAPIError` with message `msg` (the only
failure kind the collaborator raises, per its interface). -/
def ApiSwitch : Type :=
  DetectionType → Bool → Except String (Option String)

/-- Embedding of `AlarmService.trigger_switch`: forward the device call and
translate a `HikvisionAPIError` into a `ServiceRuntimeError` carrying the
formatted message. -/
def trigger_switch (api : ApiSwitch) (trigger : DetectionType) (state : Bool) :
    Except BotError (Option String) :=
  match api trigger state with
  | .ok text => .ok text
  | .error err =>
    .error (.serviceRuntimeError
      (trigger.full_name ++ " Switch encountered an error: " ++ err))

/-- State of an `AlarmService` instance, together with the one camera flag
(`cam.is_behind_nvr`) and the per-trigger configuration flags
(`conf.get_detection_schema_by_type(t).enabled`) that `start` reads. -/
structure AlarmService where
  is_behind_nvr : Bool
  conf_enabled : DetectionType → Bool
  alert_delay : Int
  alert_count : Nat
  started : Bool

/-- Observable side effects of a `start` call: a `trigger_switch` device
call, setting the started event, spawning the monitoring task. -/
inductive AlarmAction where
  | switchCall (trigger : DetectionType) (state : Bool)
  | setStarted
  | spawnMonitoringTask
  deriving DecidableEq, Repr

/-- Whether an effect is a trigger-switch device call. -/
def AlarmAction.isSwitchCall : AlarmAction → Bool
  | .switchCall _ _ => true
  | _ => false

/-- Outcome of `AlarmService.start`: the optional raised error, the final
service state, and the ordered effect trace. -/
structure StartResult where
  error : Option BotError
  service : AlarmService
  trace : List AlarmAction

namespace AlarmService

/-- Embedding of the loop body of `AlarmService._enable_triggers_on_camera`
over an explicit trigger list: for each trigger enabled in the
configuration, call `trigger_switch`; a raised error aborts the loop and
propagates. Returns the calls made and the optional error. -/
def enable_triggers_go (conf_enabled : DetectionType → Bool) (api : ApiSwitch) :
    List DetectionType → List AlarmAction × Option BotError
  | [] => ([], none)
  | t :: ts =>
    if conf_enabled t then
      match trigger_switch api t true with
      | .error e => ([.switchCall t true], some e)
      | .ok _ =>
        let rest := enable_triggers_go conf_enabled api ts
        (.switchCall t true :: rest.1, rest.2)
    else
      enable_triggers_go conf_enabled api ts

/-- Embedding of `AlarmService._enable_triggers_on_camera`. -/
def enable_triggers_on_camera (svc : AlarmService) (api : ApiSwitch) :
    List AlarmAction × Option BotError :=
  enable_triggers_go svc.conf_enabled api ALARM_TRIGGERS

/-- Embedding of `AlarmService.start`: return early when the camera is
behind an NVR; raise when already started; otherwise enable the configured
triggers (propagating their error and stopping there), set the started
event, and spawn the monitoring task. -/
def start (svc : AlarmService) (api : ApiSwitch) : StartResult :=
  if svc.is_behind_nvr then
    ⟨none, svc, []⟩
  else if svc.started then
    ⟨some (.serviceRuntimeError "Alarm (alert) mode already started"), svc, []⟩
  else
    match svc.enable_triggers_on_camera api with
    | (tr, some e) => ⟨some e, svc, tr⟩
    | (tr, none) =>
      ⟨none, { svc with started := true }, tr ++ [.setStarted, .spawnMonitoringTask]⟩

/-- Embedding of `AlarmService.stop`: raise when not started, otherwise
clear the started event. -/
def stop (svc : AlarmService) : Option BotError × AlarmService :=
  if svc.started then
    (none, { svc with started := false })
  else
    (some (.serviceRuntimeError "Alarm alert mode already stopped"), svc)

end AlarmService

/-! ## Telegram DVR upload worker (`services/stream/dvr/upload/tasks/telegram.py`) -/

/-- Filesystem facts about a DVR file that `_validate_file` reads through
the `exists` and `is_empty` properties (both query the disk, outside the
embedded state). -/
structure FileEnv where
  exists_on_disk : Bool
  is_empty : Bool
  deriving DecidableEq, Repr

/-- Observable side effects of processing one dequeued file: one transport
invocation (the `send_chat_action` plus `send_video` pair of a validated
upload attempt, abstracted as a single call to the external Telegram
transport) and the lock decrement. -/
inductive UploadAction where
  | transportCall
  | decrementLock
  deriving DecidableEq, Repr

/-- Embedding of the tenacity retry cap
`_UPLOAD_RETRY_STOP_AFTER = stop_after_attempt(5)`. -/
def UPLOAD_RETRY_STOP_AFTER : Nat := 5

/-- Embedding of the tenacity fixed inter-attempt delay
`_UPLOAD_RETRY_WAIT = wait_fixed(5)` (timing only; no claim depends on it). -/
def UPLOAD_RETRY_WAIT : Nat := 5

/-- Embedding of `TelegramDvrUploadTask._validate_file`: existence, then
broken flag, then emptiness, short-circuiting on the first failure. -/
def validate_file (f : DvrFile) (env : FileEnv) : Bool :=
  if !env.exists_on_disk then false
  else if f.is_broken then false
  else if env.is_empty then false
  else true

/-- Embedding of one call of the private `TelegramDvrUploadTask.__upload`:
a validation failure returns normally without touching the transport; a
validated attempt invokes the transport once, whose success for this
attempt is the `transportOk` flag (a failed transport call raises, and
`_upload_video` re-raises after logging). Returns whether the call
returned normally, and its trace. -/
def upload_once (f : DvrFile) (env : FileEnv) (transportOk : Bool) :
    Bool × List UploadAction :=
  if validate_file f env then
    (transportOk, [.transportCall])
  else
    (true, [])

/-- Embedding of the tenacity `@retry` wrapper on
`TelegramDvrUploadTask._upload_video`: attempt `__upload` with attempt
numbers `i, i+1, ...` while `remaining` attempts are allowed; a normal
return stops the loop with success; a raising attempt is retried until the
attempt cap is exhausted, after which tenacity raises `RetryError`
(modelled as overall failure). `transport` gives each attempt number its
transport outcome. Returns overall success, the concatenated trace, and
the number of attempts made. -/
def upload_video (f : DvrFile) (env : FileEnv) (transport : Nat → Bool) :
    Nat → Nat → Bool × List UploadAction × Nat
  | _, 0 => (false, [], 0)
  | i, remaining + 1 =>
    let attempt := upload_once f env (transport i)
    if attempt.1 then
      (true, attempt.2, 1)
    else if remaining = 0 then
      (false, attempt.2, 1)
    else
      let rest := upload_video f env transport (i + 1) remaining
      (rest.1, attempt.2 ++ rest.2.1, rest.2.2 + 1)

/-- Embedding of one iteration of `TelegramDvrUploadTask._process_queue`
for a dequeued file: `await self._upload_video(file_)` followed by
`file_.decrement_lock_count()`. When `_upload_video` raises (retry cap
exhausted), the decrement line is never reached and the exception
propagates out of the `while True` loop, terminating the worker. Returns
the final file state, the trace, and whether the worker loop continues to
the next queued file. -/
def process_queue_item (f : DvrFile) (env : FileEnv) (transport : Nat → Bool) :
    DvrFile × List UploadAction × Bool :=
  let run := upload_video f env transport 1 UPLOAD_RETRY_STOP_AFTER
  if run.1 then
    (f.decrement_lock_count, run.2.1 ++ [.decrementLock], true)
  else
    (f, run.2.1, false)

/-! ## Detection-toggle task handler (`event_engine/handlers/inbound.py`) -/

/-- The fields of a `DetectionConfOutboundEvent` that
`TaskDetectionConf._handle` computes: the trigger, the requested state and
the informational text returned by the switch call. The pass-through
handles (`event`, `cam`, `message`) are opaque to the handler and omitted. -/
structure DetectionConfOutboundEvent where
  type : DetectionType
  state : Bool
  text : Option String
  deriving DecidableEq, Repr

/-- Embedding of `TaskDetectionConf._handle`: call
`cam.services.alarm.trigger_switch` with the requested trigger and state —
with no `try` around it, so a raised `ServiceRuntimeError` propagates out
of the handler — and on a normal return enqueue exactly one outbound event
carrying the state and the returned text. Returns the optional propagated
error and the list of outbound events enqueued. -/
def taskDetectionConf_handle (api : ApiSwitch) (trigger : DetectionType)
    (state : Bool) : Option BotError × List DetectionConfOutboundEvent :=
  match trigger_switch api trigger state with
  | .error e => (some e, [])
  | .ok text => (none, [{ type := trigger, state := state, text := text }])

/-! ## Theorems -/

/-- Helper: a successful construction forces a positive stored lock count
equal to the supplied one. -/
theorem init_ok_lock_count {filename : String} {k : Int} {f : DvrFile}
    (hf : DvrFile.init filename k = .ok f) : f.lock_count = k ∧ 0 < k := by
  unfold DvrFile.init at hf
  split at hf
  · exact absurd hf (by simp)
  · next hk =>
    simp only [Except.ok.injEq] at hf
    subst hf
    exact ⟨rfl, by omega⟩

/-- Helper: one decrement preserves non-negativity of the lock count. -/
theorem decrement_lock_count_nonneg {f : DvrFile} (h : 0 ≤ f.lock_count) :
    0 ≤ f.decrement_lock_count.lock_count := by
  unfold DvrFile.decrement_lock_count
  split
  · next hpos => simp; omega
  · exact h

/-- C4: for every file successfully constructed (hence with a positive lock
count) and every sequence of decrement calls, the lock count never goes
negative, and afterwards `is_locked` is false exactly when the lock count
is zero. -/
theorem dvr_lock_count_invariant (filename : String) (k : Int) (f : DvrFile)
    (hf : DvrFile.init filename k = .ok f) (n : Nat) :
    0 ≤ (f.applyDecrements n).lock_count ∧
    ((f.applyDecrements n).is_locked = false ↔
      (f.applyDecrements n).lock_count = 0) := by
  obtain ⟨hfl, hk⟩ := init_ok_lock_count hf
  constructor
  · induction n with
    | zero => simpa [DvrFile.applyDecrements, hfl] using le_of_lt hk
    | succ n ih => exact decrement_lock_count_nonneg ih
  · simp [DvrFile.is_locked]

/-- Witness for C4 at a concrete file and three decrements. -/
theorem dvr_lock_count_invariant_witness :
    0 ≤ ((⟨"a.mp4", 2, false, none, none, none, none⟩ : DvrFile).applyDecrements 3).lock_count ∧
    (((⟨"a.mp4", 2, false, none, none, none, none⟩ : DvrFile).applyDecrements 3).is_locked = false ↔
      ((⟨"a.mp4", 2, false, none, none, none, none⟩ : DvrFile).applyDecrements 3).lock_count = 0) :=
  dvr_lock_count_invariant "a.mp4" 2 _ (by simp [DvrFile.init]) 3

/-- C9: construction with a non-positive lock count raises, and
construction with a positive lock count returns a file storing exactly the
supplied lock count. -/
theorem dvr_file_init_lock_count (filename : String) (k : Int) :
    (k ≤ 0 → ∃ e, DvrFile.init filename k = .error e) ∧
    (0 < k → ∃ f, DvrFile.init filename k = .ok f ∧ f.lock_count = k) := by
  constructor
  · intro hk
    refine ⟨"Lock count cannot be lower or equal 0", ?_⟩
    unfold DvrFile.init
    rw [if_pos hk]
  · intro hk
    refine ⟨{ filename := filename, lock_count := k, is_broken := false,
              duration := none, width := none, height := none,
              probe_ctx := none }, ?_, rfl⟩
    unfold DvrFile.init
    rw [if_neg (by omega)]

/-- Witness for C9 at lock counts `-1` and `3`. -/
theorem dvr_file_init_lock_count_witness :
    (∃ e, DvrFile.init "a.mp4" (-1) = .error e) ∧
    (∃ f, DvrFile.init "b.mp4" 3 = .ok f ∧ f.lock_count = 3) :=
  ⟨(dvr_file_init_lock_count "a.mp4" (-1)).1 (by norm_num),
    (dvr_file_init_lock_count "b.mp4" 3).2 (by norm_num)⟩

/-- C3 counterexample: a freshly constructed file probed with non-empty
metadata that has a parsable duration but no video stream at all. The
claim says such a file is marked broken with duration, width and height
all unset; the code instead assigns the duration, then raises an uncaught
`IndexError` on `video_streams[0]`, so the file is never marked broken. -/
theorem probe_no_video_stream_counterexample :
    (DvrFile.init "rec.mp4" 1).map (fun f =>
        ((f.get_probe_ctx (some ⟨some [], some 5⟩)).1.is_broken,
          (f.get_probe_ctx (some ⟨some [], some 5⟩)).1.duration,
          (f.get_probe_ctx (some ⟨some [], some 5⟩)).2)) =
      .ok (false, some 5, some .indexError) := by
  rfl

/-- C3 as amended: a falsy probe result marks the file broken with the
metadata fields untouched; a missing duration key (with readable streams)
marks it broken with the fields untouched; readable streams with a
duration but no video stream assign the duration and raise an uncaught
`IndexError`, leaving the broken flag unchanged (so a healthy file is not
marked broken); a video stream lacking its height key marks the file
broken with the duration already assigned. -/
theorem get_probe_ctx_failure_modes (f : DvrFile) :
    (f.get_probe_ctx none =
      ({ f with probe_ctx := none, is_broken := true }, none)) ∧
    (∀ streams : List FfprobeStream,
      streams.any (fun s => s.codec_type.isNone) = false →
      f.get_probe_ctx (some ⟨some streams, none⟩) =
        ({ f with probe_ctx := some ⟨some streams, none⟩, is_broken := true },
          none)) ∧
    (∀ (streams : List FfprobeStream) (d : Int),
      streams.any (fun s => s.codec_type.isNone) = false →
      DvrFile.videoStreams streams = [] →
      f.get_probe_ctx (some ⟨some streams, some d⟩) =
        ({ f with probe_ctx := some ⟨some streams, some d⟩, duration := some d },
          some .indexError)) ∧
    (∀ (streams : List FfprobeStream) (d : Int) (v : FfprobeStream)
        (rest : List FfprobeStream),
      streams.any (fun s => s.codec_type.isNone) = false →
      DvrFile.videoStreams streams = v :: rest →
      v.height = none →
      f.get_probe_ctx (some ⟨some streams, some d⟩) =
        ({ f with probe_ctx := some ⟨some streams, some d⟩, duration := some d, is_broken := true }, none)) := by
  refine ⟨rfl, ?_, ?_, ?_⟩
  · intro streams ha
    simp [DvrFile.get_probe_ctx, ha, DvrFile.mark_as_broken]
  · intro streams d ha hv
    simp [DvrFile.get_probe_ctx, ha, hv]
  · intro streams d v rest ha hv hh
    simp [DvrFile.get_probe_ctx, ha, hv, hh, DvrFile.mark_as_broken]

/-- Witness for C3 (amended) at a concrete file: the empty-probe branch,
the missing-duration branch, the no-video-stream branch and the
missing-height branch, each at explicit metadata. -/
theorem get_probe_ctx_failure_modes_witness :
    ((⟨"rec.mp4", 1, false, none, none, none, none⟩ : DvrFile).get_probe_ctx none =
      (⟨"rec.mp4", 1, true, none, none, none, none⟩, none)) ∧
    ((⟨"rec.mp4", 1, false, none, none, none, none⟩ : DvrFile).get_probe_ctx
        (some ⟨some [⟨some "audio", none, none⟩], none⟩) =
      (⟨"rec.mp4", 1, true, none, none, none,
        some ⟨some [⟨some "audio", none, none⟩], none⟩⟩, none)) ∧
    ((⟨"rec.mp4", 1, false, none, none, none, none⟩ : DvrFile).get_probe_ctx
        (some ⟨some [⟨some "audio", none, none⟩], some 5⟩) =
      (⟨"rec.mp4", 1, false, some 5, none, none,
        some ⟨some [⟨some "audio", none, none⟩], some 5⟩⟩, some .indexError)) ∧
    ((⟨"rec.mp4", 1, false, none, none, none, none⟩ : DvrFile).get_probe_ctx
        (some ⟨some [⟨some "video", none, some 640⟩], some 5⟩) =
      (⟨"rec.mp4", 1, true, some 5, none, none,
        some ⟨some [⟨some "video", none, some 640⟩], some 5⟩⟩, none)) := by
  refine ⟨(get_probe_ctx_failure_modes _).1, ?_, ?_, ?_⟩
  · exact (get_probe_ctx_failure_modes _).2.1 [⟨some "audio", none, none⟩] (by decide)
  · exact (get_probe_ctx_failure_modes _).2.2.1 [⟨some "audio", none, none⟩] 5
      (by decide) (by decide)
  · exact (get_probe_ctx_failure_modes _).2.2.2 [⟨some "video", none, some 640⟩] 5
      ⟨some "video", none, some 640⟩ [] (by decide) (by decide) rfl

/-- C2: evaluation of the worker-loop body at the failing input — a valid,
healthy, non-empty file whose transport fails on every attempt. Exactly
the configured attempt cap (5) of transport calls occur, after which the
tenacity `RetryError` propagates out of `_process_queue`: the lock count
is NOT decremented (the file comes back with its lock count of 1 intact
and no `decrementLock` in the trace) and the worker loop terminates
instead of continuing to the next queued file, contradicting the claim
that the decrement is unconditional and the loop continues. -/
theorem upload_retry_exhaustion_leaks_lock :
    process_queue_item ⟨"rec.mp4", 1, false, none, none, none, none⟩
        ⟨true, false⟩ (fun _ => false) =
      (⟨"rec.mp4", 1, false, none, none, none, none⟩,
        [.transportCall, .transportCall, .transportCall, .transportCall,
          .transportCall], false) ∧
    (upload_video ⟨"rec.mp4", 1, false, none, none, none, none⟩
        ⟨true, false⟩ (fun _ => false) 1 UPLOAD_RETRY_STOP_AFTER).2.2 =
      UPLOAD_RETRY_STOP_AFTER :=
  ⟨rfl, rfl⟩

/-- C8: for every file failing the existence/broken/empty validation, the
upload attempt returns on the first try without invoking the transport
(the trace holds no `transportCall` and exactly one attempt is made, so
nothing is retried), and the lock count is still decremented exactly once
before the worker loop continues. -/
theorem upload_validation_failure_decrements_once (f : DvrFile) (env : FileEnv)
    (transport : Nat → Bool) (h : validate_file f env = false) :
    process_queue_item f env transport =
      (f.decrement_lock_count, [.decrementLock], true) ∧
    (upload_video f env transport 1 UPLOAD_RETRY_STOP_AFTER).2.2 = 1 := by
  have h1 : upload_video f env transport 1 UPLOAD_RETRY_STOP_AFTER =
      (true, [], 1) := by
    simp [UPLOAD_RETRY_STOP_AFTER, upload_video, upload_once, h]
  exact ⟨by simp [process_queue_item, h1], by simp [h1]⟩

/-- Witness for C8 at a concrete broken file. -/
theorem upload_validation_failure_decrements_once_witness :
    process_queue_item ⟨"rec.mp4", 2, true, none, none, none, none⟩
        ⟨true, false⟩ (fun _ => true) =
      ((⟨"rec.mp4", 2, true, none, none, none, none⟩ : DvrFile).decrement_lock_count,
        [.decrementLock], true) ∧
    (upload_video ⟨"rec.mp4", 2, true, none, none, none, none⟩
        ⟨true, false⟩ (fun _ => true) 1 UPLOAD_RETRY_STOP_AFTER).2.2 = 1 :=
  upload_validation_failure_decrements_once _ _ _ (by decide)

/-- Helper: with a switch collaborator that succeeds on every enable call,
the trigger-enabling loop makes exactly one call per enabled trigger, in
configuration-list order, and raises nothing. -/
theorem enable_triggers_go_ok (conf : DetectionType → Bool) (api : ApiSwitch)
    (hok : ∀ t, ∃ text, api t true = .ok text) (l : List DetectionType) :
    AlarmService.enable_triggers_go conf api l =
      ((l.filter conf).map (fun t => .switchCall t true), none) := by
  induction l with
  | nil => rfl
  | cons t ts ih =>
    by_cases hc : conf t
    · obtain ⟨text, ht⟩ := hok t
      simp [AlarmService.enable_triggers_go, hc, trigger_switch, ht, ih]
    · simp [AlarmService.enable_triggers_go, hc, ih]

/-- Helper: the trigger-enabling loop records nothing but switch calls. -/
theorem enable_triggers_go_trace (conf : DetectionType → Bool)
    (api : ApiSwitch) (l : List DetectionType) :
    ∀ a ∈ (AlarmService.enable_triggers_go conf api l).1,
      ∃ t, a = AlarmAction.switchCall t true := by
  induction l with
  | nil => intro a ha; simp [AlarmService.enable_triggers_go] at ha
  | cons t ts ih =>
    intro a ha
    by_cases hc : conf t
    · cases hsw : trigger_switch api t true with
      | error e =>
        simp [AlarmService.enable_triggers_go, hc, hsw] at ha
        exact ⟨t, ha⟩
      | ok text =>
        simp [AlarmService.enable_triggers_go, hc, hsw] at ha
        rcases ha with ha | ha
        · exact ⟨t, ha⟩
        · exact ih a ha
    · simp [AlarmService.enable_triggers_go, hc] at ha
      exact ih a ha

/-- Helper: the trigger-enabling loop raises exactly when some trigger
enabled in the configuration has a failing device call. -/
theorem enable_triggers_go_error_iff (conf : DetectionType → Bool)
    (api : ApiSwitch) (l : List DetectionType) :
    ((AlarmService.enable_triggers_go conf api l).2.isSome = true ↔
      ∃ t ∈ l, conf t = true ∧ ∃ msg, api t true = .error msg) := by
  induction l with
  | nil => simp [AlarmService.enable_triggers_go]
  | cons t ts ih =>
    by_cases hc : conf t
    · cases hsw : api t true with
      | ok text =>
        simp [AlarmService.enable_triggers_go, hc, trigger_switch, hsw, ih]
      | error msg =>
        simp [AlarmService.enable_triggers_go, hc, trigger_switch, hsw]
    · simp [AlarmService.enable_triggers_go, hc, ih]

/-- Helper: a start on a non-relay, stopped service whose configured
switch calls all succeed returns normally with the service started and the
full effect trace: one switch call per enabled trigger, then the started
flag, then the task spawn. -/
theorem start_success (svc : AlarmService) (api : ApiSwitch)
    (hnvr : svc.is_behind_nvr = false) (hst : svc.started = false)
    (hok : ∀ t, ∃ text, api t true = .ok text) :
    svc.start api =
      ⟨none, { svc with started := true },
        (ALARM_TRIGGERS.filter svc.conf_enabled).map
            (fun t => .switchCall t true) ++
          [.setStarted, .spawnMonitoringTask]⟩ := by
  simp [AlarmService.start, hnvr, hst, AlarmService.enable_triggers_on_camera,
    enable_triggers_go_ok svc.conf_enabled api hok]

/-- C5: on a camera not behind a relay, starting an already-started alarm
service raises the runtime-state error and changes nothing; stopping a
stopped one raises the runtime-state error and changes nothing; and the
valid transitions return normally and flip the started flag. -/
theorem alarm_state_machine (svc : AlarmService) (api : ApiSwitch)
    (hnvr : svc.is_behind_nvr = false) :
    (svc.started = true →
      svc.start api =
        ⟨some (.serviceRuntimeError "Alarm (alert) mode already started"),
          svc, []⟩) ∧
    (svc.started = false →
      svc.stop =
        (some (.serviceRuntimeError "Alarm alert mode already stopped"), svc)) ∧
    (svc.started = false → (∀ t, ∃ text, api t true = .ok text) →
      (svc.start api).error = none ∧
      (svc.start api).service.started = true) ∧
    (svc.started = true → svc.stop = (none, { svc with started := false })) := by
  refine ⟨?_, ?_, ?_, ?_⟩
  · intro hs; simp [AlarmService.start, hnvr, hs]
  · intro hs; simp [AlarmService.stop, hs]
  · intro hs hok; rw [start_success svc api hnvr hs hok]
    exact ⟨rfl, rfl⟩
  · intro hs; simp [AlarmService.stop, hs]

/-- Witness for C5 at a concrete service and an always-succeeding switch
collaborator, exercising all four transitions. -/
theorem alarm_state_machine_witness :
    ((⟨false, fun _ => true, 10, 0, true⟩ : AlarmService).start
        (fun _ _ => .ok (some "OK")) =
      ⟨some (.serviceRuntimeError "Alarm (alert) mode already started"),
        ⟨false, fun _ => true, 10, 0, true⟩, []⟩) ∧
    ((⟨false, fun _ => true, 10, 0, false⟩ : AlarmService).stop =
      (some (.serviceRuntimeError "Alarm alert mode already stopped"),
        ⟨false, fun _ => true, 10, 0, false⟩)) ∧
    (((⟨false, fun _ => true, 10, 0, false⟩ : AlarmService).start
        (fun _ _ => .ok (some "OK"))).error = none ∧
      ((⟨false, fun _ => true, 10, 0, false⟩ : AlarmService).start
        (fun _ _ => .ok (some "OK"))).service.started = true) ∧
    ((⟨false, fun _ => true, 10, 0, true⟩ : AlarmService).stop =
      (none, ⟨false, fun _ => true, 10, 0, false⟩)) :=
  ⟨(alarm_state_machine ⟨false, fun _ => true, 10, 0, true⟩
      (fun _ _ => .ok (some "OK")) rfl).1 rfl,
    (alarm_state_machine ⟨false, fun _ => true, 10, 0, false⟩
      (fun _ _ => .ok (some "OK")) rfl).2.1 rfl,
    (alarm_state_machine ⟨false, fun _ => true, 10, 0, false⟩
      (fun _ _ => .ok (some "OK")) rfl).2.2.1 rfl (fun _ => ⟨some "OK", rfl⟩),
    (alarm_state_machine ⟨false, fun _ => true, 10, 0, true⟩
      (fun _ _ => .ok (some "OK")) rfl).2.2.2 rfl⟩

/-- C6: on a camera flagged behind an NVR, `start` is a no-op: it returns
without error, performs no effect at all (no switch call, no task spawn)
and leaves the whole service state — the started flag included —
unchanged. -/
theorem alarm_start_behind_nvr_noop (svc : AlarmService) (api : ApiSwitch)
    (h : svc.is_behind_nvr = true) :
    svc.start api = ⟨none, svc, []⟩ := by
  simp [AlarmService.start, h]

/-- Witness for C6 at a concrete relayed camera. -/
theorem alarm_start_behind_nvr_noop_witness :
    (⟨true, fun _ => true, 10, 0, false⟩ : AlarmService).start
        (fun _ _ => .ok (some "OK")) =
      ⟨none, ⟨true, fun _ => true, 10, 0, false⟩, []⟩ :=
  alarm_start_behind_nvr_noop _ _ rfl

/-- C7: a successful start on a non-relay, stopped camera produces the
effect trace listing exactly one trigger-switch call per trigger enabled
in the configuration, in configuration order, followed by the started flag
and the task spawn — so exactly `k` switch calls occur for `k` enabled
triggers, all of them before the service reports started and before the
monitoring task is spawned. -/
theorem alarm_start_one_switch_per_enabled_trigger (svc : AlarmService)
    (api : ApiSwitch) (hnvr : svc.is_behind_nvr = false)
    (hst : svc.started = false) (hok : ∀ t, ∃ text, api t true = .ok text) :
    (svc.start api).trace =
      (ALARM_TRIGGERS.filter svc.conf_enabled).map
          (fun t => .switchCall t true) ++
        [.setStarted, .spawnMonitoringTask] ∧
    ((svc.start api).trace.countP AlarmAction.isSwitchCall) =
      (ALARM_TRIGGERS.filter svc.conf_enabled).length ∧
    (svc.start api).service.started = true := by
  rw [start_success svc api hnvr hst hok]
  refine ⟨rfl, ?_, rfl⟩
  simp [List.countP_append, List.countP_map, Function.comp,
    AlarmAction.isSwitchCall, List.countP_cons]

/-- Witness for C7 at a concrete configuration enabling exactly two of the
three triggers: exactly two switch calls, both before the started flag and
the task spawn. -/
theorem alarm_start_one_switch_per_enabled_trigger_witness :
    ((⟨false, fun t => t != .intrusion_detection, 10, 0, false⟩ :
        AlarmService).start (fun _ _ => .ok (some "OK"))).trace =
      [.switchCall .motion_detection true,
        .switchCall .line_crossing_detection true,
        .setStarted, .spawnMonitoringTask] ∧
    (((⟨false, fun t => t != .intrusion_detection, 10, 0, false⟩ :
        AlarmService).start
          (fun _ _ => .ok (some "OK"))).trace.countP
        AlarmAction.isSwitchCall) = 2 ∧
    ((⟨false, fun t => t != .intrusion_detection, 10, 0, false⟩ :
        AlarmService).start (fun _ _ => .ok (some "OK"))).service.started =
      true :=
  alarm_start_one_switch_per_enabled_trigger
    ⟨false, fun t => t != .intrusion_detection, 10, 0, false⟩
    (fun _ _ => .ok (some "OK")) rfl rfl (fun _ => ⟨some "OK", rfl⟩)

/-- C10: on a non-relay, stopped camera, `start` raises exactly when some
trigger enabled in the configuration has a failing switch call; and
whenever it raises, the error is a runtime-state error, the service state
is completely unchanged (the started flag in particular stays false), the
started flag is never set and no monitoring task is spawned in the trace —
so a later `start` with a healthy collaborator succeeds without an
intervening `stop`. -/
theorem alarm_start_switch_failure_atomic (svc : AlarmService)
    (api : ApiSwitch) (hnvr : svc.is_behind_nvr = false)
    (hst : svc.started = false) :
    ((svc.start api).error.isSome = true ↔
      ∃ t ∈ ALARM_TRIGGERS, svc.conf_enabled t = true ∧
        ∃ msg, api t true = .error msg) ∧
    (∀ e, (svc.start api).error = some e →
      (svc.start api).service = svc ∧
      (svc.start api).service.started = false ∧
      AlarmAction.setStarted ∉ (svc.start api).trace ∧
      AlarmAction.spawnMonitoringTask ∉ (svc.start api).trace ∧
      ∃ msg, e = .serviceRuntimeError msg) ∧
    (∀ e, (svc.start api).error = some e →
      ∀ api2 : ApiSwitch, (∀ t, ∃ text, api2 t true = .ok text) →
        ((svc.start api).service.start api2).error = none ∧
        ((svc.start api).service.start api2).service.started = true) := by
  have hun : svc.start api =
      (match svc.enable_triggers_on_camera api with
        | (tr, some e) => ⟨some e, svc, tr⟩
        | (tr, none) =>
          ⟨none, { svc with started := true },
            tr ++ [.setStarted, .spawnMonitoringTask]⟩) := by
    simp [AlarmService.start, hnvr, hst]
  have hiff := enable_triggers_go_error_iff svc.conf_enabled api ALARM_TRIGGERS
  have htr := enable_triggers_go_trace svc.conf_enabled api ALARM_TRIGGERS
  rw [AlarmService.enable_triggers_on_camera] at hun
  cases henb : AlarmService.enable_triggers_go svc.conf_enabled api
      ALARM_TRIGGERS with
  | mk tr err =>
    rw [henb] at hun hiff
    rw [henb] at htr
    cases err with
    | none =>
      simp only at hun
      refine ⟨?_, ?_, ?_⟩
      · rw [hun]
        simpa using hiff
      · intro e he
        rw [hun] at he
        simp at he
      · intro e he
        rw [hun] at he
        simp at he
    | some e0 =>
      simp only at hun
      refine ⟨?_, ?_, ?_⟩
      · rw [hun]
        simpa using hiff
      · intro e he
        rw [hun] at he
        simp only [Option.some.injEq] at he
        subst he
        rw [hun]
        refine ⟨rfl, hst, ?_, ?_, ?_⟩
        · intro hmem
          obtain ⟨t, htt⟩ := htr _ hmem
          exact absurd htt (by simp)
        · intro hmem
          obtain ⟨t, htt⟩ := htr _ hmem
          exact absurd htt (by simp)
        · cases e0 with
          | serviceRuntimeError m => exact ⟨m, rfl⟩
      · intro e he api2 hok2
        rw [hun]
        rw [start_success svc api2 hnvr hst hok2]
        exact ⟨rfl, rfl⟩

/-- Witness for C10 at a concrete service whose every switch call fails:
the start raises, the state is unchanged, nothing past the first switch
call appears in the trace, and a retry with a healthy collaborator then
succeeds. -/
theorem alarm_start_switch_failure_atomic_witness :
    (((⟨false, fun _ => true, 10, 0, false⟩ : AlarmService).start
        (fun _ _ => .error "Connection timeout")).error.isSome = true ↔
      ∃ t ∈ ALARM_TRIGGERS,
        (⟨false, fun _ => true, 10, 0, false⟩ : AlarmService).conf_enabled t =
          true ∧
        ∃ msg, (fun (_ : DetectionType) (_ : Bool) =>
          (Except.error "Connection timeout" : Except String (Option String)))
            t true = .error msg) ∧
    (((⟨false, fun _ => true, 10, 0, false⟩ : AlarmService).start
        (fun _ _ => .error "Connection timeout")).service =
      ⟨false, fun _ => true, 10, 0, false⟩ ∧
      ((⟨false, fun _ => true, 10, 0, false⟩ : AlarmService).start
        (fun _ _ => .error "Connection timeout")).service.started = false ∧
      AlarmAction.setStarted ∉
        ((⟨false, fun _ => true, 10, 0, false⟩ : AlarmService).start
          (fun _ _ => .error "Connection timeout")).trace ∧
      AlarmAction.spawnMonitoringTask ∉
        ((⟨false, fun _ => true, 10, 0, false⟩ : AlarmService).start
          (fun _ _ => .error "Connection timeout")).trace ∧
      ∃ msg,
        (BotError.serviceRuntimeError
          "Motion Detection Switch encountered an error: Connection timeout") =
          .serviceRuntimeError msg) ∧
    ((((⟨false, fun _ => true, 10, 0, false⟩ : AlarmService).start
        (fun _ _ => .error "Connection timeout")).service.start
          (fun _ _ => .ok (some "OK"))).error = none ∧
      (((⟨false, fun _ => true, 10, 0, false⟩ : AlarmService).start
        (fun _ _ => .error "Connection timeout")).service.start
          (fun _ _ => .ok (some "OK"))).service.started = true) :=
  ⟨(alarm_start_switch_failure_atomic ⟨false, fun _ => true, 10, 0, false⟩
      (fun _ _ => .error "Connection timeout") rfl rfl).1,
    (alarm_start_switch_failure_atomic ⟨false, fun _ => true, 10, 0, false⟩
      (fun _ _ => .error "Connection timeout") rfl rfl).2.1
      (.serviceRuntimeError
        "Motion Detection Switch encountered an error: Connection timeout") rfl,
    (alarm_start_switch_failure_atomic ⟨false, fun _ => true, 10, 0, false⟩
      (fun _ _ => .error "Connection timeout") rfl rfl).2.2
      (.serviceRuntimeError
        "Motion Detection Switch encountered an error: Connection timeout") rfl
      (fun _ _ => .ok (some "OK")) (fun _ => ⟨some "OK", rfl⟩)⟩

/-- C1 counterexample: a detection-toggle invocation whose underlying
switch call fails. The claim says the failure is caught and surfaced as
the text field of an outbound event that is still emitted; the handler
has no `try` around the `trigger_switch` call, so the runtime-state error
propagates out of the handler and zero outbound events are emitted. -/
theorem detection_toggle_failure_drops_event :
    taskDetectionConf_handle (fun _ _ => .error "Connection timeout")
        .line_crossing_detection true =
      (some (.serviceRuntimeError
          "Line Crossing Detection Switch encountered an error: Connection timeout"),
        []) :=
  rfl

/-- C1 as amended: when the switch call returns normally, the handler
emits exactly one outbound event carrying the requested state and the
informational text of the switch call; when the switch call fails, the
runtime-state error is not caught by this handler — it propagates and no
outbound event is emitted. -/
theorem detection_toggle_handler_events (api : ApiSwitch)
    (trigger : DetectionType) (state : Bool) :
    (∀ text, api trigger state = .ok text →
      taskDetectionConf_handle api trigger state =
        (none, [{ type := trigger, state := state, text := text }])) ∧
    (∀ msg, api trigger state = .error msg →
      taskDetectionConf_handle api trigger state =
        (some (.serviceRuntimeError
          (trigger.full_name ++ " Switch encountered an error: " ++ msg)),
          [])) := by
  constructor
  · intro text h
    simp [taskDetectionConf_handle, trigger_switch, h]
  · intro msg h
    simp [taskDetectionConf_handle, trigger_switch, h]

/-- Witness for C1 (amended): the spec scenario — line-crossing, state
true, switch returns OK — emits the single event with state true and text
OK; and a failing switch call on another trigger propagates with no
event. -/
theorem detection_toggle_handler_events_witness :
    taskDetectionConf_handle (fun _ _ => .ok (some "OK"))
        .line_crossing_detection true =
      (none, [{ type := .line_crossing_detection, state := true, text := some "OK" }]) ∧
    taskDetectionConf_handle (fun _ _ => .error "Connection refused")
        .motion_detection false =
      (some (.serviceRuntimeError
        "Motion Detection Switch encountered an error: Connection refused"),
        []) :=
  ⟨(detection_toggle_handler_events (fun _ _ => .ok (some "OK"))
      .line_crossing_detection true).1 (some "OK") rfl,
    (detection_toggle_handler_events (fun _ _ => .error "Connection refused")
      .motion_detection false).2 "Connection refused" rfl⟩

end HikBot
